import Mathlib

/-!
Shallow embedding of the order-taking core of
`domain-modeling-made-functional-typescript`.

Conventions of the embedding:
* JS `number` is modelled as `Rat` (exact decimal arithmetic on the values
  actually used by the domain: prices, quantities, amounts).
* `fp-ts` `Either<Error, T>` is modelled as `Except String T`, the `String`
  being the `Error`'s message, built from the same template literals as the
  source (`errorFrom`).
* `fp-ts` `Option` is `Option`; `TaskEither` collapses to `Except` (the task
  layer only sequences one remote call and carries no other effect).
* JS `str.match(regexLiteral)` is an unanchored search; the regex literals
  appearing in the source (`d{5}`, `Wd{4}`, `Gd{3}`, `.+@.+`) contain no
  escape sequences, so they denote plain character sequences (resp. a
  one-char-`@`-one-char window where `.` matches any char except line
  terminators).  Each is embedded by its exact search semantics together
  with its source text (used in error messages).
-/

-- ===============================
-- libs/error.ts : errorFrom wraps a message into a Left(Error);
-- here an error is its message string.
-- ===============================

/-- Message of `createString`/`createLike`'s null-or-empty failure and (via the
source's copy-pasted template) of `createNumber`'s below-minimum failure. -/
def msgNullOrEmpty (fieldName : String) : String :=
  s!"{fieldName} must not be null or empty"

/-- Message of `createString`/`createStringOption`'s over-length failure. -/
def msgTooLong (fieldName : String) (maxLen : Nat) : String :=
  s!"{fieldName} must not be more than {maxLen} chars"

/-- Message of `createNumber`'s above-maximum failure (the source template
says "chars" here as well). -/
def msgAboveMax (fieldName : String) (maxVal : Rat) : String :=
  s!"{fieldName} must not be more than {maxVal} chars"

/-- Message of `createLike`'s pattern-mismatch failure. -/
def msgNoMatch (fieldName : String) (str : String) (pat : String) : String :=
  s!"{fieldName}: \x27{str}\x27 must match the pattern \x27{pat}\x27"

/-- `isOk` on `Except`, used to state success/failure without naming a payload. -/
def exceptOk {ε α : Type} : Except ε α → Bool
  | .ok _ => true
  | .error _ => false

-- ===============================
-- JS regex-literal search semantics for the patterns used in simple-types.ts
-- ===============================

/-- Does the candidate list start with the given character sequence? -/
def startsWithSeq : List Char → List Char → Bool
  | [], _ => true
  | _ :: _, [] => false
  | p :: ps, c :: cs => p == c && startsWithSeq ps cs

/-- Unanchored search for a plain character sequence (JS `str.match(lit)`
for a regex literal without metacharacters). -/
def containsSeq (pat : List Char) : List Char → Bool
  | [] => startsWithSeq pat []
  | c :: rest => startsWithSeq pat (c :: rest) || containsSeq pat rest

/-- JS regex `.`: any character except the four line terminators. -/
def jsDot (c : Char) : Bool :=
  !(c == '\n' || c == '\r' || c == Char.ofNat 0x2028 || c == Char.ofNat 0x2029)

/-- Unanchored search for `.+@.+`: some window `c₁ @ c₂` with `c₁`, `c₂`
matched by `.` (the chars adjacent to the `@` must be `.`-matchable). -/
def emailSeq : List Char → Bool
  | c1 :: c2 :: c3 :: rest =>
    (jsDot c1 && c2 == '@' && jsDot c3) || emailSeq (c2 :: c3 :: rest)
  | _ => false

/-- A JS regex as used by `createLike`: its source text (for error messages)
and its `match` (unanchored search) semantics. -/
structure JsPattern where
  src : String
  test : String → Bool

/-- The regex literal written `d{5}` in the source: five literal `d`s. -/
def zipPattern : JsPattern :=
  ⟨"d\x7b5\x7d", fun s => containsSeq "ddddd".toList s.toList⟩

/-- The regex literal written `Wd{4}` in the source: `W` then four literal `d`s. -/
def widgetPattern : JsPattern :=
  ⟨"Wd\x7b4\x7d", fun s => containsSeq "Wdddd".toList s.toList⟩

/-- The regex literal written `Gd{3}` in the source: `G` then three literal `d`s. -/
def gizmoPattern : JsPattern :=
  ⟨"Gd\x7b3\x7d", fun s => containsSeq "Gddd".toList s.toList⟩

/-- The regex literal `.+@.+`. -/
def emailPattern : JsPattern :=
  ⟨".+@.+", fun s => emailSeq s.toList⟩

-- ===============================
-- order-taking/common-types/constrained-type.ts
-- ===============================

/-- `createString(fieldName, ctor, maxLen)(str)`: Error if the input is
empty, or longer than `maxLen`; otherwise wraps it with `ctor`. -/
def createString {T : Type} (fieldName : String) (ctor : String → T)
    (maxLen : Nat) (str : String) : Except String T :=
  if str.length = 0 then .error (msgNullOrEmpty fieldName)
  else if maxLen < str.length then .error (msgTooLong fieldName maxLen)
  else .ok (ctor str)

/-- `createStringOption(fieldName, ctor, maxLen)(str?)`: absent/empty input
succeeds with `none`; over-length fails; otherwise `some` wrapped value. -/
def createStringOption {T : Type} (fieldName : String) (ctor : String → T)
    (maxLen : Nat) (str : Option String) : Except String (Option T) :=
  match str with
  | none => .ok none
  | some s =>
    if s.length = 0 then .ok none
    else if maxLen < s.length then .error (msgTooLong fieldName maxLen)
    else .ok (some (ctor s))

/-- `createNumber(fieldName, ctor, min, max)(num)`: Error below `min` (with
the source's copy-pasted null-or-empty message) or above `max`. -/
def createNumber {T : Type} (fieldName : String) (ctor : Rat → T)
    (minVal maxVal : Rat) (num : Rat) : Except String T :=
  if num < minVal then .error (msgNullOrEmpty fieldName)
  else if maxVal < num then .error (msgAboveMax fieldName maxVal)
  else .ok (ctor num)

/-- `createLike(fieldName, ctor, regex)(str)`: Error if the input is empty
or the unanchored regex search fails; otherwise wraps it. -/
def createLike {T : Type} (fieldName : String) (ctor : String → T)
    (pat : JsPattern) (str : String) : Except String T :=
  if str.length = 0 then .error (msgNullOrEmpty fieldName)
  else if !(pat.test str) then .error (msgNoMatch fieldName str pat.src)
  else .ok (ctor str)

-- ===============================
-- order-taking/common-types/simple-types.ts
-- ===============================

/-- Wrapper: non-empty string of at most 50 chars. -/
structure String50 where
  value : String
  deriving DecidableEq, Repr

/-- `String50.create`: via `createString` with `maxLen` 50. -/
def String50.create (fieldName : String) : String → Except String String50 :=
  createString fieldName String50.mk 50

/-- `String50.createOption`: via `createStringOption` with `maxLen` 50. -/
def String50.createOption (fieldName : String) :
    Option String → Except String (Option String50) :=
  createStringOption fieldName String50.mk 50

/-- Wrapper: e-mail address. -/
structure EmailAddress where
  value : String
  deriving DecidableEq, Repr

/-- `EmailAddress.create`: via `createLike` with the `.+@.+` literal. -/
def EmailAddress.create (fieldName : String) : String → Except String EmailAddress :=
  createLike fieldName EmailAddress.mk emailPattern

/-- Wrapper: zip code. -/
structure ZipCode where
  value : String
  deriving DecidableEq, Repr

/-- `ZipCode.create`: via `createLike` with the literal written `d{5}`. -/
def ZipCode.create (fieldName : String) : String → Except String ZipCode :=
  createLike fieldName ZipCode.mk zipPattern

/-- Wrapper: order id (non-empty, at most 50 chars). -/
structure OrderId where
  value : String
  deriving DecidableEq, Repr

/-- `OrderId.create`: via `createString` with `maxLen` 50. -/
def OrderId.create (fieldName : String) : String → Except String OrderId :=
  createString fieldName OrderId.mk 50

/-- Wrapper: order-line id (non-empty, at most 50 chars). -/
structure OrderLineId where
  value : String
  deriving DecidableEq, Repr

/-- `OrderLineId.create`: via `createString` with `maxLen` 50. -/
def OrderLineId.create (fieldName : String) : String → Except String OrderLineId :=
  createString fieldName OrderLineId.mk 50

/-- Wrapper: widget code. -/
structure WidgetCode where
  value : String
  deriving DecidableEq, Repr

/-- `WidgetCode.create`: via `createLike` with the literal written `Wd{4}`. -/
def WidgetCode.create (fieldName : String) : String → Except String WidgetCode :=
  createLike fieldName WidgetCode.mk widgetPattern

/-- Wrapper: gizmo code. -/
structure GizmoCode where
  value : String
  deriving DecidableEq, Repr

/-- `GizmoCode.create`: via `createLike` with the literal written `Gd{3}`. -/
def GizmoCode.create (fieldName : String) : String → Except String GizmoCode :=
  createLike fieldName GizmoCode.mk gizmoPattern

/-- `ProductCode = WidgetCode | GizmoCode`. -/
inductive ProductCode where
  | widget (w : WidgetCode)
  | gizmo (g : GizmoCode)
  deriving DecidableEq, Repr

/-- The `.value` accessor on the `ProductCode` union. -/
def ProductCode.value : ProductCode → String
  | .widget w => w.value
  | .gizmo g => g.value

/-- JS `String.prototype.startsWith` with a literal prefix. -/
def startsWithLit (pre s : String) : Bool :=
  startsWithSeq pre.toList s.toList

/-- `createProductCode`: empty fails; a code starting with `W` goes to
`WidgetCode.create`, with `G` to `GizmoCode.create`; anything else fails
with "format not recognized". -/
def createProductCode (fieldName : String) (code : String) : Except String ProductCode :=
  if code.length = 0 then .error "must not be null or empty"
  else if startsWithLit "W" code then (WidgetCode.create fieldName code).map ProductCode.widget
  else if startsWithLit "G" code then (GizmoCode.create fieldName code).map ProductCode.gizmo
  else .error s!"format not recognized \x27{code}\x27"

/-- Wrapper: unit quantity (the comment in the source asks for an integer
between 1 and 1000; `createNumber` only enforces the bounds). -/
structure UnitQuantity where
  value : Rat
  deriving DecidableEq, Repr

/-- `UnitQuantity.create`: via `createNumber` with bounds 1 and 1000. -/
def UnitQuantity.create (fieldName : String) : Rat → Except String UnitQuantity :=
  createNumber fieldName UnitQuantity.mk 1 1000

/-- Wrapper: kilogram quantity (decimal between 0.05 and 100). -/
structure KilogramQuantity where
  value : Rat
  deriving DecidableEq, Repr

/-- `KilogramQuantity.create`: via `createNumber` with bounds 0.05 and 100. -/
def KilogramQuantity.create (fieldName : String) : Rat → Except String KilogramQuantity :=
  createNumber fieldName KilogramQuantity.mk (5 / 100 : Rat) 100

/-- `OrderQuantity = UnitQuantity | KilogramQuantity`. -/
inductive OrderQuantity where
  | unit (u : UnitQuantity)
  | kilogram (k : KilogramQuantity)
  deriving DecidableEq, Repr

/-- The `.value` accessor on the `OrderQuantity` union. -/
def OrderQuantity.value : OrderQuantity → Rat
  | .unit u => u.value
  | .kilogram k => k.value

/-- `createOrderQuantity`: dispatch on the product-code variant — a widget
code selects `UnitQuantity.create`, a gizmo code `KilogramQuantity.create`. -/
def createOrderQuantity (fieldName : String) (productCode : ProductCode) :
    Rat → Except String OrderQuantity :=
  match productCode with
  | .widget _ => fun num => (UnitQuantity.create fieldName num).map OrderQuantity.unit
  | .gizmo _ => fun num => (KilogramQuantity.create fieldName num).map OrderQuantity.kilogram

/-- Wrapper: price (decimal between 0 and 1000). -/
structure Price where
  value : Rat
  deriving DecidableEq, Repr

/-- `Price.create`: via `createNumber` with bounds 0 and 1000 (the TS call
site passes the class itself where the field name goes; the embedding uses
the type's name, which only affects the message text). -/
def Price.create : Rat → Except String Price :=
  createNumber "Price" Price.mk 0 1000

/-- `Price.multiply`: re-validate `qty * this.value` through `Price.create`. -/
def Price.multiply (p : Price) (qty : Rat) : Except String Price :=
  Price.create (qty * p.value)

/-- Wrapper: billing amount (decimal between 0 and 10000). -/
structure BillingAmount where
  value : Rat
  deriving DecidableEq, Repr

/-- `BillingAmount.create`: via `createNumber` with bounds 0 and 10000. -/
def BillingAmount.create : Rat → Except String BillingAmount :=
  createNumber "BillingAmount" BillingAmount.mk 0 10000

/-- `BillingAmount.sumPrices`: an empty list sums to 0, a non-empty list to
the semigroup-sum of its values (a fold from the head); the total is then
re-validated through `BillingAmount.create`. -/
def BillingAmount.sumPrices (prices : List Price) : Except String BillingAmount :=
  BillingAmount.create
    (match prices with
     | [] => 0
     | p :: ps => (ps.map Price.value).foldl (· + ·) p.value)

-- ===============================
-- order-taking/common-types: compound value objects
-- ===============================

/-- `PersonalName`: first and last bounded strings. -/
structure PersonalName where
  FirstName : String50
  LastName : String50
  deriving DecidableEq, Repr

/-- `CustomerInfo`: personal name plus e-mail address. -/
structure CustomerInfo where
  Name : PersonalName
  EmailAddress : EmailAddress
  deriving DecidableEq, Repr

/-- `Address`: line 1, optional lines 2-4, city, zip. -/
structure Address where
  AddressLine1 : String50
  AddressLine2 : Option String50
  AddressLine3 : Option String50
  AddressLine4 : Option String50
  City : String50
  ZipCode : ZipCode
  deriving DecidableEq, Repr

-- ===============================
-- place-order/public-types.ts : inputs, outputs, errors
-- ===============================

/-- Raw customer info as submitted. -/
structure UnvalidatedCustomerInfo where
  FirstName : String
  LastName : String
  EmailAddress : String
  deriving DecidableEq, Repr

/-- Raw address as submitted (lines 2-4 optional). -/
structure UnvalidatedAddress where
  AddressLine1 : String
  City : String
  ZipCode : String
  AddressLine2 : Option String
  AddressLine3 : Option String
  AddressLine4 : Option String
  deriving DecidableEq, Repr

/-- Raw order line as submitted. -/
structure UnvalidatedOrderLine where
  OrderLineId : String
  ProductCode : String
  Quantity : Rat
  deriving DecidableEq, Repr

/-- Raw order as submitted. -/
structure UnvalidatedOrder where
  OrderId : String
  CustomerInfo : UnvalidatedCustomerInfo
  ShippingAddress : UnvalidatedAddress
  BillingAddress : UnvalidatedAddress
  Lines : List UnvalidatedOrderLine
  deriving DecidableEq, Repr

/-- Event: the acknowledgment was successfully posted. -/
structure OrderAcknowledgmentSent where
  OrderId : OrderId
  EmailAddress : EmailAddress
  deriving DecidableEq, Repr

/-- A validated line with its computed line price. -/
structure PricedOrderLine where
  OrderLineId : OrderLineId
  ProductCode : ProductCode
  Quantity : OrderQuantity
  LinePrice : Price
  deriving DecidableEq, Repr

/-- The priced order: validated parts plus the amount to bill. -/
structure PricedOrder where
  OrderId : OrderId
  CustomerInfo : CustomerInfo
  ShippingAddress : Address
  BillingAddress : Address
  AmountToBill : BillingAmount
  Lines : List PricedOrderLine
  deriving DecidableEq, Repr

/-- Event sent to the shipping context: the full priced-order snapshot. -/
structure OrderPlaced where
  OrderId : OrderId
  CustomerInfo : CustomerInfo
  ShippingAddress : Address
  BillingAddress : Address
  AmountToBill : BillingAmount
  Lines : List PricedOrderLine
  deriving DecidableEq, Repr

/-- Event sent to the billing context; only created when the amount is not zero. -/
structure BillableOrderPlaced where
  OrderId : OrderId
  BillingAddress : Address
  AmountToBill : BillingAmount
  deriving DecidableEq, Repr

/-- `PlaceOrderEvent = OrderPlaced | BillableOrderPlaced | OrderAcknowledgmentSent`. -/
inductive PlaceOrderEvent where
  | orderPlaced (e : OrderPlaced)
  | billableOrderPlaced (e : BillableOrderPlaced)
  | acknowledgmentSent (e : OrderAcknowledgmentSent)
  deriving DecidableEq, Repr

/-- `ValidationError`: an `Error` subclass carrying a message. -/
structure ValidationError where
  message : String
  deriving DecidableEq, Repr

/-- `PricingError`: an `Error` subclass carrying a message. -/
structure PricingError where
  message : String
  deriving DecidableEq, Repr

/-- `ServiceInfo` of a remote collaborator. -/
structure ServiceInfo where
  name : String
  endpoint : String
  deriving DecidableEq, Repr

/-- `RemoteServiceError`: service identity plus underlying failure message. -/
structure RemoteServiceError where
  service : ServiceInfo
  exception : String
  deriving DecidableEq, Repr

/-- `PlaceOrderError = ValidationError | PricingError | RemoteServiceError`. -/
inductive PlaceOrderError where
  | validation (e : ValidationError)
  | pricing (e : PricingError)
  | remoteService (e : RemoteServiceError)
  deriving DecidableEq, Repr

-- ===============================
-- place-order/implementation.types.ts : dependency interfaces
-- ===============================

/-- `CheckProductCodeExists`: synchronous existence predicate. -/
abbrev CheckProductCodeExists := ProductCode → Bool

/-- `CheckedAddress`: a phantom brand over `UnvalidatedAddress`. -/
abbrev CheckedAddress := UnvalidatedAddress

/-- `AddressValidationError = InvalidFormat | AddressNotFound`. -/
inductive AddressValidationError where
  | invalidFormat (msg : String)
  | addressNotFound (msg : String)
  deriving DecidableEq, Repr

/-- `CheckAddressExists`: the remote existence check (the task layer of the
source's `TaskEither` is collapsed; it only sequences this one call). -/
abbrev CheckAddressExists := UnvalidatedAddress → Except AddressValidationError CheckedAddress

/-- `GetProductPrice`: synchronous price lookup. -/
abbrev GetProductPrice := ProductCode → Price

/-- Wrapper for the rendered acknowledgment letter. -/
structure HtmlString where
  value : String
  deriving DecidableEq, Repr

/-- The acknowledgment artifact: customer e-mail plus letter. -/
structure OrderAcknowledgment where
  EmailAddress : EmailAddress
  Letter : HtmlString
  deriving DecidableEq, Repr

/-- `SendResult = Sent | NotSent`. -/
inductive SendResult where
  | Sent
  | NotSent
  deriving DecidableEq, Repr

/-- `CreateOrderAcknowledgmentLetter`: renders a letter from the priced order. -/
abbrev CreateOrderAcknowledgmentLetter := PricedOrder → HtmlString

/-- `SendOrderAcknowledgment`: attempts delivery; exactly two outcomes. -/
abbrev SendOrderAcknowledgment := OrderAcknowledgment → SendResult

/-- Validated line: id, product code, quantity. -/
structure ValidatedOrderLine where
  OrderLineId : OrderLineId
  ProductCode : ProductCode
  Quantity : OrderQuantity
  deriving DecidableEq, Repr

/-- Validated order. -/
structure ValidatedOrder where
  OrderId : OrderId
  CustomerInfo : CustomerInfo
  ShippingAddress : Address
  BillingAddress : Address
  Lines : List ValidatedOrderLine
  deriving DecidableEq, Repr

-- ===============================
-- place-order/implementation.ts : the validation and pricing steps
-- ===============================

/-- `fp-ts` `E.sequenceArray`: left-to-right, first `Left` short-circuits. -/
def sequenceE {ε α : Type} : List (Except ε α) → Except ε (List α)
  | [] => .ok []
  | x :: xs => do
    let a ← x
    let rest ← sequenceE xs
    return a :: rest

/-- `toCustomerInfo`: first name, last name, e-mail, in that order, each
creation error converted into a `ValidationError`. -/
def toCustomerInfo (u : UnvalidatedCustomerInfo) : Except ValidationError CustomerInfo := do
  let firstName ← (String50.create "FirstName" u.FirstName).mapError ValidationError.mk
  let lastName ← (String50.create "LastName" u.LastName).mapError ValidationError.mk
  let emailAddress ← (EmailAddress.create "EmailAddress" u.EmailAddress).mapError ValidationError.mk
  let name := PersonalName.mk firstName lastName
  return CustomerInfo.mk name emailAddress

/-- `toAddress`: component-wise re-validation of a checked address: line 1,
optional lines 2-4, city, zip, in that order. -/
def toAddress (checkedAddress : CheckedAddress) : Except ValidationError Address := do
  let addressLine1 ← (String50.create "AddressLine1" checkedAddress.AddressLine1).mapError ValidationError.mk
  let addressLine2 ← (String50.createOption "AddressLine2" checkedAddress.AddressLine2).mapError ValidationError.mk
  let addressLine3 ← (String50.createOption "AddressLine3" checkedAddress.AddressLine3).mapError ValidationError.mk
  let addressLine4 ← (String50.createOption "AddressLine4" checkedAddress.AddressLine4).mapError ValidationError.mk
  let city ← (String50.create "City" checkedAddress.City).mapError ValidationError.mk
  let zipCode ← (ZipCode.create "ZipCode" checkedAddress.ZipCode).mapError ValidationError.mk
  return Address.mk addressLine1 addressLine2 addressLine3 addressLine4 city zipCode

/-- `toCheckedAddress`: call the remote check and fold both of its failure
modes into a `ValidationError`. -/
def toCheckedAddress (checkAddress : CheckAddressExists) (address : UnvalidatedAddress) :
    Except ValidationError CheckedAddress :=
  (checkAddress address).mapError fun addrError =>
    match addrError with
    | .addressNotFound _ => ValidationError.mk "Address not found"
    | .invalidFormat _ => ValidationError.mk "Address has bad format"

/-- `toOrderId`: creation error becomes a `ValidationError`. -/
def toOrderId (orderId : String) : Except ValidationError OrderId :=
  (OrderId.create "OrderId" orderId).mapError ValidationError.mk

/-- `toOrderLineId`: creation error becomes a `ValidationError`. -/
def toOrderLineId (orderLineId : String) : Except ValidationError OrderLineId :=
  (OrderLineId.create "OrderLineId" orderLineId).mapError ValidationError.mk

/-- `toProductCode`: parse the code, then require the external existence
check to pass; a parsed-but-unknown code fails with `Invalid: {value}`. -/
def toProductCode (checkProductCodeExists : CheckProductCodeExists) (code : String) :
    Except ValidationError ProductCode := do
  let productCode ← (createProductCode "ProductCode" code).mapError ValidationError.mk
  if checkProductCodeExists productCode then
    return productCode
  else
    throw (ValidationError.mk s!"Invalid: {productCode.value}")

/-- `toOrderQuantity`: quantity bound selected by the product-code variant. -/
def toOrderQuantity (productCode : ProductCode) (quantity : Rat) :
    Except ValidationError OrderQuantity :=
  (createOrderQuantity "OrderQuantity" productCode quantity).mapError ValidationError.mk

/-- `toValidatedOrderLine`: line id, product code, quantity, in that order. -/
def toValidatedOrderLine (checkProductCodeExists : CheckProductCodeExists)
    (line : UnvalidatedOrderLine) : Except ValidationError ValidatedOrderLine := do
  let orderLineId ← toOrderLineId line.OrderLineId
  let productCode ← toProductCode checkProductCodeExists line.ProductCode
  let quantity ← toOrderQuantity productCode line.Quantity
  return ValidatedOrderLine.mk orderLineId productCode quantity

/-- `validateOrder`: order id, customer info, all lines (in order), checked
shipping address, shipping components, checked billing address, billing
components; the first failure aborts the whole step. -/
def validateOrder (checkProductCodeExists : CheckProductCodeExists)
    (checkAddressExists : CheckAddressExists) (unvalidated : UnvalidatedOrder) :
    Except ValidationError ValidatedOrder := do
  let orderId ← toOrderId unvalidated.OrderId
  let customerInfo ← toCustomerInfo unvalidated.CustomerInfo
  let lines ← sequenceE (unvalidated.Lines.map (toValidatedOrderLine checkProductCodeExists))
  let checkedShippingAddress ← toCheckedAddress checkAddressExists unvalidated.ShippingAddress
  let shippingAddress ← toAddress checkedShippingAddress
  let checkedBillingAddress ← toCheckedAddress checkAddressExists unvalidated.BillingAddress
  let billingAddress ← toAddress checkedBillingAddress
  return ValidatedOrder.mk orderId customerInfo shippingAddress billingAddress lines

/-- `toPricedOrderLine`: look the price up, multiply by the quantity value
(re-validated through the price bound), keep the other fields. -/
def toPricedOrderLine (getProductPrice : GetProductPrice)
    (validatedOrderLine : ValidatedOrderLine) : Except PricingError PricedOrderLine :=
  let qty := validatedOrderLine.Quantity.value
  let price := getProductPrice validatedOrderLine.ProductCode
  do
    let linePrice ← (price.multiply qty).mapError PricingError.mk
    return PricedOrderLine.mk validatedOrderLine.OrderLineId validatedOrderLine.ProductCode
      validatedOrderLine.Quantity linePrice

/-- `priceOrder`: price every line (fail-fast), sum the line prices into a
bounded billing amount, assemble the priced order. -/
def priceOrder (getProductPrice : GetProductPrice) (validatedOrder : ValidatedOrder) :
    Except PricingError PricedOrder := do
  let lines ← sequenceE (validatedOrder.Lines.map (toPricedOrderLine getProductPrice))
  let amountToBill ←
    (BillingAmount.sumPrices (lines.map (fun l => l.LinePrice))).mapError PricingError.mk
  return PricedOrder.mk validatedOrder.OrderId validatedOrder.CustomerInfo
    validatedOrder.ShippingAddress validatedOrder.BillingAddress amountToBill lines

-- ===============================
-- place-order/implementation.common.ts : acknowledgment and events
-- ===============================

/-- `acknowledgeOrder`: render the letter, build the acknowledgment, send
it; `Sent` yields `some` acknowledgment-sent event, `NotSent` yields `none`.
The return type has no error channel. -/
def acknowledgeOrder (createAcknowledgmentLetter : CreateOrderAcknowledgmentLetter)
    (sendAcknowledgment : SendOrderAcknowledgment) (pricedOrder : PricedOrder) :
    Option OrderAcknowledgmentSent :=
  let letter := createAcknowledgmentLetter pricedOrder
  let acknowledgment := OrderAcknowledgment.mk pricedOrder.CustomerInfo.EmailAddress letter
  match sendAcknowledgment acknowledgment with
  | .Sent => some (OrderAcknowledgmentSent.mk pricedOrder.OrderId pricedOrder.CustomerInfo.EmailAddress)
  | .NotSent => none

/-- `createOrderPlacedEvent`: the full priced-order snapshot. -/
def createOrderPlacedEvent (i : PricedOrder) : OrderPlaced :=
  OrderPlaced.mk i.OrderId i.CustomerInfo i.ShippingAddress i.BillingAddress i.AmountToBill i.Lines

/-- `createBillingEvent`: `some` billable event exactly when the amount to
bill is strictly greater than 0. -/
def createBillingEvent (placedOrder : PricedOrder) : Option BillableOrderPlaced :=
  if placedOrder.AmountToBill.value > 0 then
    some (BillableOrderPlaced.mk placedOrder.OrderId placedOrder.BillingAddress placedOrder.AmountToBill)
  else
    none

/-- `listOfOption`: `none` to `[]`, `some x` to `[x]`. -/
def listOfOption {T : Type} : Option T → List T
  | none => []
  | some x => [x]

/-- `createEvents`: spread of the optional acknowledgment event, the one
order-placed event, and the optional billable event, in that order (the
source re-wraps each event's fields into a fresh object; mirrored here). -/
def createEvents (pricedOrder : PricedOrder)
    (acknowledgmentEventOpt : Option OrderAcknowledgmentSent) : List PlaceOrderEvent :=
  (listOfOption ((acknowledgmentEventOpt.map
      (fun i => OrderAcknowledgmentSent.mk i.OrderId i.EmailAddress)))).map
      PlaceOrderEvent.acknowledgmentSent
  ++ [PlaceOrderEvent.orderPlaced
        (let e := createOrderPlacedEvent pricedOrder
         OrderPlaced.mk e.OrderId e.CustomerInfo e.ShippingAddress e.BillingAddress
           e.AmountToBill e.Lines)]
  ++ (listOfOption ((createBillingEvent pricedOrder).map
      (fun e => BillableOrderPlaced.mk e.OrderId e.BillingAddress e.AmountToBill))).map
      PlaceOrderEvent.billableOrderPlaced

/-- `placeOrderEvents`: acknowledge, then compose the event list. -/
def placeOrderEvents (createOrderAcknowledgmentLetter : CreateOrderAcknowledgmentLetter)
    (sendOrderAcknowledgment : SendOrderAcknowledgment) (pricedOrder : PricedOrder) :
    List PlaceOrderEvent :=
  let ackOpt := acknowledgeOrder createOrderAcknowledgmentLetter sendOrderAcknowledgment pricedOrder
  createEvents pricedOrder ackOpt

/-- `placeOrder`: validate, price, acknowledge-and-compose; the validation
and pricing errors pass into the `PlaceOrderError` union unchanged. -/
def placeOrder (checkCode : CheckProductCodeExists) (checkAddress : CheckAddressExists)
    (getPrice : GetProductPrice) (createAck : CreateOrderAcknowledgmentLetter)
    (sendAck : SendOrderAcknowledgment) (unvalidated : UnvalidatedOrder) :
    Except PlaceOrderError (List PlaceOrderEvent) := do
  let validatedOrder ← (validateOrder checkCode checkAddress unvalidated).mapError
    PlaceOrderError.validation
  let pricedOrder ← (priceOrder getPrice validatedOrder).mapError PlaceOrderError.pricing
  return placeOrderEvents createAck sendAck pricedOrder

-- ===============================
-- Spec-side definition for the fail-fast refinement (spec section 4.2):
-- the first failing sub-validation, sub-validations evaluated top to bottom.
-- ===============================

/-- The error of an outcome, if any. -/
def firstErrorOf {ε α : Type} : Except ε α → Option ε
  | .error e => some e
  | .ok _ => none

/-- Modelled on the spec's § 4.2 procedure (not on the code's bind chain):
the first failure among — order id; customer info; each line in input
order; shipping-address existence; shipping components; billing-address
existence; billing components — or `none` when every sub-validation
succeeds. -/
def specFirstFailure (checkProductCodeExists : CheckProductCodeExists)
    (checkAddressExists : CheckAddressExists) (u : UnvalidatedOrder) :
    Option ValidationError :=
  match toOrderId u.OrderId with
  | .error e => some e
  | .ok _ =>
  match toCustomerInfo u.CustomerInfo with
  | .error e => some e
  | .ok _ =>
  match u.Lines.findSome? (fun l => firstErrorOf (toValidatedOrderLine checkProductCodeExists l)) with
  | some e => some e
  | none =>
  match toCheckedAddress checkAddressExists u.ShippingAddress with
  | .error e => some e
  | .ok checkedShipping =>
  match toAddress checkedShipping with
  | .error e => some e
  | .ok _ =>
  match toCheckedAddress checkAddressExists u.BillingAddress with
  | .error e => some e
  | .ok checkedBilling =>
  match toAddress checkedBilling with
  | .error e => some e
  | .ok _ => none

/-- Sample dependency for the pricing witness: every code costs 10. -/
def sampleGetPrice : GetProductPrice := fun _ => Price.mk 10

/-- Sample customer info for witnesses. -/
def sampleCustomerInfo : CustomerInfo :=
  CustomerInfo.mk (PersonalName.mk (String50.mk "a") (String50.mk "b")) (EmailAddress.mk "a@b")

/-- Sample address for witnesses. -/
def sampleAddress : Address :=
  Address.mk (String50.mk "l1") none none none (String50.mk "c") (ZipCode.mk "ddddd")

/-- Sample validated order with one widget line of quantity 3. -/
def sampleValidatedOrder : ValidatedOrder :=
  ValidatedOrder.mk (OrderId.mk "ord1") sampleCustomerInfo sampleAddress sampleAddress
    [ValidatedOrderLine.mk (OrderLineId.mk "L1") (ProductCode.widget (WidgetCode.mk "Wdddd"))
      (OrderQuantity.unit (UnitQuantity.mk 3))]

/-- The priced order produced from `sampleValidatedOrder` at price 10. -/
def samplePricedOrder : PricedOrder :=
  PricedOrder.mk (OrderId.mk "ord1") sampleCustomerInfo sampleAddress sampleAddress
    (BillingAmount.mk 30)
    [PricedOrderLine.mk (OrderLineId.mk "L1") (ProductCode.widget (WidgetCode.mk "Wdddd"))
      (OrderQuantity.unit (UnitQuantity.mk 3)) (Price.mk 30)]

/-- Sample dependency: every product code exists. -/
def sampleCheckCode : CheckProductCodeExists := fun _ => true

/-- Sample dependency: the address check succeeds with its input. -/
def sampleCheckAddress : CheckAddressExists := fun a => .ok a

/-- Sample dependency: an empty letter. -/
def sampleCreateLetter : CreateOrderAcknowledgmentLetter := fun _ => HtmlString.mk ""

/-- Sample dependency: the sender always reports Sent. -/
def sampleSendAck : SendOrderAcknowledgment := fun _ => SendResult.Sent

/-- Sample raw order whose order id is empty (first sub-validation fails). -/
def sampleBadOrder : UnvalidatedOrder :=
  UnvalidatedOrder.mk "" (UnvalidatedCustomerInfo.mk "a" "b" "a@b")
    (UnvalidatedAddress.mk "l1" "c" "ddddd" none none none)
    (UnvalidatedAddress.mk "l1" "c" "ddddd" none none none)
    []

-- ===============================
-- Decidability of result equality, for evaluating the embedding on
-- concrete inputs.
-- ===============================

deriving instance DecidableEq for Except

-- ===============================
-- Helper lemmas
-- ===============================

/-- A left fold of addition is the starting value plus the list sum. -/
theorem foldl_add_eq_add_sum (l : List Rat) (a : Rat) :
    l.foldl (· + ·) a = a + l.sum := by
  induction l generalizing a with
  | nil => simp
  | cons x xs ih => simp [List.foldl_cons, ih (a + x), List.sum_cons, add_assoc]

/-- `sumPrices` is `BillingAmount.create` of the plain sum of the values. -/
theorem sumPrices_eq_create_sum (prices : List Price) :
    BillingAmount.sumPrices prices = BillingAmount.create ((prices.map Price.value).sum) := by
  cases prices with
  | nil => simp [BillingAmount.sumPrices]
  | cons p ps => simp [BillingAmount.sumPrices, foldl_add_eq_add_sum]

/-- `>>=` on a success applies the continuation. -/
theorem exceptBind_ok {ε α β : Type} (a : α) (f : α → Except ε β) :
    (Except.ok a >>= f) = f a := rfl

/-- `>>=` on a failure short-circuits. -/
theorem exceptBind_error {ε α β : Type} (e : ε) (f : α → Except ε β) :
    ((Except.error e : Except ε α) >>= f) = .error e := rfl

/-- `pure` on `Except` is `ok`. -/
theorem exceptPure {ε α : Type} (a : α) : (pure a : Except ε α) = .ok a := rfl

/-- `mapError` on a success is the success. -/
theorem exceptMapError_ok {ε ε' α : Type} (f : ε → ε') (a : α) :
    (Except.ok a : Except ε α).mapError f = .ok a := rfl

/-- `mapError` on a failure applies the function. -/
theorem exceptMapError_error {ε ε' α : Type} (f : ε → ε') (e : ε) :
    (Except.error e : Except ε α).mapError f = .error (f e) := rfl

/-- `<$>` on a success applies the function. -/
theorem exceptFMap_ok {ε α β : Type} (f : α → β) (a : α) :
    (f <$> (Except.ok a : Except ε α)) = .ok (f a) := rfl

/-- `<$>` on a failure short-circuits. -/
theorem exceptFMap_error {ε α β : Type} (f : α → β) (e : ε) :
    (f <$> (Except.error e : Except ε α)) = .error e := rfl

/-- A successful `BillingAmount.create` returns the input, which then
satisfies both bounds. -/
theorem billingAmount_create_ok {x : Rat} {b : BillingAmount}
    (h : BillingAmount.create x = .ok b) : b.value = x ∧ 0 ≤ x ∧ x ≤ 10000 := by
  unfold BillingAmount.create createNumber at h
  split_ifs at h with h1 h2
  simp at h
  subst h
  exact ⟨rfl, not_lt.mp h1, not_lt.mp h2⟩

/-- A successful `toPricedOrderLine` copies the id, code and quantity and
sets the line price to quantity times looked-up price. -/
theorem toPricedOrderLine_ok {gp : GetProductPrice} {vl : ValidatedOrderLine}
    {pl : PricedOrderLine} (h : toPricedOrderLine gp vl = .ok pl) :
    pl.OrderLineId = vl.OrderLineId ∧ pl.ProductCode = vl.ProductCode ∧
    pl.Quantity = vl.Quantity ∧
    pl.LinePrice.value = vl.Quantity.value * (gp vl.ProductCode).value := by
  simp only [toPricedOrderLine, Price.multiply, Price.create, createNumber] at h
  split_ifs at h with h1 h2
  · simp [exceptMapError_error, exceptBind_error] at h
  · simp [exceptMapError_error, exceptBind_error] at h
  · simp [exceptMapError_ok, exceptBind_ok, exceptPure] at h
    rw [← h]
    simp

/-- A successful traversal has one output per input, in order, each the
success of the function at the corresponding input. -/
theorem sequenceE_map_ok {ε α β : Type} {f : α → Except ε β} :
    ∀ {xs : List α} {ys : List β}, sequenceE (xs.map f) = .ok ys →
      ys.length = xs.length ∧
      ∀ i (hx : i < xs.length) (hy : i < ys.length),
        f (xs.get ⟨i, hx⟩) = .ok (ys.get ⟨i, hy⟩) := by
  intro xs
  induction xs with
  | nil =>
    intro ys h
    simp [sequenceE] at h
    subst h
    exact ⟨rfl, fun i hx => absurd hx (by simp)⟩
  | cons x xs ih =>
    intro ys h
    simp only [List.map_cons, sequenceE] at h
    cases hfx : f x with
    | error e => rw [hfx] at h; simp [exceptBind_error] at h
    | ok b =>
      rw [hfx] at h
      cases hs : sequenceE (xs.map f) with
      | error e => rw [hs] at h; simp [exceptBind_ok, exceptBind_error] at h
      | ok bs =>
        rw [hs] at h
        simp only [exceptBind_ok, exceptPure] at h
        cases h
        obtain ⟨hl, hp⟩ := ih hs
        refine ⟨by simp [hl], ?_⟩
        intro i hx hy
        cases i with
        | zero => simpa using hfx
        | succ n => simpa using hp n (by simpa using hx) (by simpa using hy)

/-- `firstErrorOf` commutes with the traversal: the traversal's error is
the first element error. -/
theorem sequenceE_map_firstError {ε α β : Type} (f : α → Except ε β) :
    ∀ xs : List α, firstErrorOf (sequenceE (xs.map f)) =
      xs.findSome? (fun x => firstErrorOf (f x)) := by
  intro xs
  induction xs with
  | nil => rfl
  | cons x xs ih =>
    simp only [List.map_cons, sequenceE, List.findSome?_cons]
    cases hfx : f x with
    | error e1 => rfl
    | ok b =>
      have h1 : firstErrorOf ((Except.ok b : Except ε β) >>= fun a =>
          sequenceE (xs.map f) >>= fun rest => pure (a :: rest)) =
          firstErrorOf (sequenceE (xs.map f)) := by
        cases hs : sequenceE (xs.map f) <;> rfl
      rw [h1, ih]
      rfl

/-- A traversal fails with `e` exactly when the first failing element
fails with `e`. -/
theorem sequenceE_map_error_iff {ε α β : Type} (f : α → Except ε β) (e : ε)
    (xs : List α) : sequenceE (xs.map f) = .error e ↔
      xs.findSome? (fun x => firstErrorOf (f x)) = some e := by
  rw [← sequenceE_map_firstError]
  cases hs : sequenceE (xs.map f) <;> simp [firstErrorOf]

/-- A successful traversal has no failing element. -/
theorem sequenceE_map_ok_findSome_none {ε α β : Type} {f : α → Except ε β}
    {xs : List α} {ys : List β} (h : sequenceE (xs.map f) = .ok ys) :
    xs.findSome? (fun x => firstErrorOf (f x)) = none := by
  rw [← sequenceE_map_firstError, h]
  rfl

/-- C3: for every priced order and optional acknowledgment event,
`createEvents` is exactly the optional acknowledgment-sent event, then the
one order-placed event built from the full priced order, then the optional
billable event, and its length is 1, 2 or 3. -/
theorem createEvents_order_and_length (po : PricedOrder)
    (ackOpt : Option OrderAcknowledgmentSent) :
    createEvents po ackOpt =
      (match ackOpt with
       | some a => [PlaceOrderEvent.acknowledgmentSent
           (OrderAcknowledgmentSent.mk a.OrderId a.EmailAddress)]
       | none => [])
      ++ [PlaceOrderEvent.orderPlaced
            (OrderPlaced.mk po.OrderId po.CustomerInfo po.ShippingAddress
              po.BillingAddress po.AmountToBill po.Lines)]
      ++ (match createBillingEvent po with
          | some b => [PlaceOrderEvent.billableOrderPlaced b]
          | none => []) ∧
    ((createEvents po ackOpt).length = 1 ∨ (createEvents po ackOpt).length = 2 ∨
      (createEvents po ackOpt).length = 3) := by
  have hshape : createEvents po ackOpt =
      (match ackOpt with
       | some a => [PlaceOrderEvent.acknowledgmentSent
           (OrderAcknowledgmentSent.mk a.OrderId a.EmailAddress)]
       | none => [])
      ++ [PlaceOrderEvent.orderPlaced
            (OrderPlaced.mk po.OrderId po.CustomerInfo po.ShippingAddress
              po.BillingAddress po.AmountToBill po.Lines)]
      ++ (match createBillingEvent po with
          | some b => [PlaceOrderEvent.billableOrderPlaced b]
          | none => []) := by
    cases ackOpt <;> cases hb : createBillingEvent po <;>
      simp [createEvents, listOfOption, createOrderPlacedEvent, hb]
  refine ⟨hshape, ?_⟩
  rw [hshape]
  cases ackOpt <;> cases createBillingEvent po <;> simp

/-- C4: the event list contains a billable-order-placed event carrying the
order id, billing address and billing amount exactly when the amount to
bill is strictly positive. -/
theorem createEvents_billable_iff_positive_amount (po : PricedOrder)
    (ackOpt : Option OrderAcknowledgmentSent) :
    (∃ b, PlaceOrderEvent.billableOrderPlaced b ∈ createEvents po ackOpt ∧
        b.OrderId = po.OrderId ∧ b.BillingAddress = po.BillingAddress ∧
        b.AmountToBill = po.AmountToBill) ↔ 0 < po.AmountToBill.value := by
  by_cases hpos : po.AmountToBill.value > 0
  · simp only [hpos, iff_true]
    refine ⟨BillableOrderPlaced.mk po.OrderId po.BillingAddress po.AmountToBill, ?_, rfl, rfl, rfl⟩
    cases ackOpt <;> simp [createEvents, createBillingEvent, hpos, listOfOption]
  · simp only [gt_iff_lt] at hpos
    simp only [(by exact hpos : ¬ 0 < po.AmountToBill.value), iff_false]
    rintro ⟨b, hmem, -, -, -⟩
    cases ackOpt <;>
      simp [createEvents, createBillingEvent, if_neg, listOfOption, hpos] at hmem

/-- C5: `acknowledgeOrder` yields `some` acknowledgment-sent event carrying
the order id and customer e-mail exactly when the sender reports `Sent`, and
`none` exactly when it reports `NotSent`; its type has no error channel. -/
theorem acknowledgeOrder_some_iff_sent (createLetter : CreateOrderAcknowledgmentLetter)
    (sendAck : SendOrderAcknowledgment) (po : PricedOrder) :
    (acknowledgeOrder createLetter sendAck po =
        some (OrderAcknowledgmentSent.mk po.OrderId po.CustomerInfo.EmailAddress) ↔
      sendAck (OrderAcknowledgment.mk po.CustomerInfo.EmailAddress (createLetter po)) =
        .Sent) ∧
    (acknowledgeOrder createLetter sendAck po = none ↔
      sendAck (OrderAcknowledgment.mk po.CustomerInfo.EmailAddress (createLetter po)) =
        .NotSent) := by
  unfold acknowledgeOrder
  cases hs : sendAck (OrderAcknowledgment.mk po.CustomerInfo.EmailAddress (createLetter po)) <;>
    simp [hs]

/-- C9: `createString` succeeds with the wrapped input exactly when the
input is non-empty and no longer than `maxLen`, and fails exactly otherwise;
for `String50` a 50-char string succeeds, a 51-char string fails, and the
empty string fails. -/
theorem createString_and_string50_bounds (fieldName : String) (maxLen : Nat)
    (s : String) {T : Type} (ctor : String → T) :
    (createString fieldName ctor maxLen s = .ok (ctor s) ↔
      s.length ≠ 0 ∧ s.length ≤ maxLen) ∧
    ((∃ e, createString fieldName ctor maxLen s = .error e) ↔
      (s.length = 0 ∨ maxLen < s.length)) ∧
    exceptOk (String50.create "f" (String.mk (List.replicate 50 'a'))) = true ∧
    exceptOk (String50.create "f" (String.mk (List.replicate 51 'a'))) = false ∧
    exceptOk (String50.create "f" "") = false := by
  refine ⟨?_, ?_, by decide, by decide, by decide⟩
  · unfold createString
    split_ifs with h1 h2
    · simp [h1]
    · constructor
      · intro h; simp at h
      · rintro ⟨-, hle⟩; exact absurd h2 (not_lt.mpr hle)
    · simp [h1, not_lt.mp h2]
  · unfold createString
    split_ifs with h1 h2
    · simp [h1]
    · simp [h2]
    · simp [h1, not_lt.mp h2]

/-- C7: evaluation of `ZipCode.create` at the spec-relevant inputs — the
five-digit string "12345" is rejected (the source regex literal, lacking
escapes, requires five literal `d` characters), while "ddddd" and even the
seven-char "xdddddy" (unanchored search) are accepted; empty input fails. -/
theorem zipCode_create_regex_divergence :
    ZipCode.create "ZipCode" "12345" =
      .error (msgNoMatch "ZipCode" "12345" zipPattern.src) ∧
    ZipCode.create "ZipCode" "ddddd" = .ok (ZipCode.mk "ddddd") ∧
    ZipCode.create "ZipCode" "xdddddy" = .ok (ZipCode.mk "xdddddy") ∧
    ZipCode.create "ZipCode" "" = .error (msgNullOrEmpty "ZipCode") := by
  refine ⟨by decide, by decide, by decide, by decide⟩

/-- C6: evaluation of the product-code and quantity constructors — "W1234"
(a `W` plus four digits) is rejected while "Wdddd" is accepted, "G123" is
rejected while "Gddd" is accepted, "X9999" fails as unrecognized, and the
widget-selected quantity constructor accepts the non-integer 5/2. -/
theorem createProductCode_regex_divergence :
    createProductCode "ProductCode" "W1234" =
      .error (msgNoMatch "ProductCode" "W1234" widgetPattern.src) ∧
    createProductCode "ProductCode" "Wdddd" =
      .ok (ProductCode.widget (WidgetCode.mk "Wdddd")) ∧
    createProductCode "ProductCode" "G123" =
      .error (msgNoMatch "ProductCode" "G123" gizmoPattern.src) ∧
    createProductCode "ProductCode" "Gddd" =
      .ok (ProductCode.gizmo (GizmoCode.mk "Gddd")) ∧
    createProductCode "ProductCode" "X9999" =
      .error "format not recognized \x27X9999\x27" ∧
    createOrderQuantity "OrderQuantity" (ProductCode.widget (WidgetCode.mk "Wdddd"))
        ((5 : Rat) / 2) =
      .ok (OrderQuantity.unit (UnitQuantity.mk ((5 : Rat) / 2))) := by
  refine ⟨by decide, by decide, by decide, by decide, by decide, ?_⟩
  norm_num [createOrderQuantity, UnitQuantity.create, createNumber, Except.map]

/-- C8: for an in-bounds price, `multiply` succeeds with the exact product
`qty * value` exactly when that product is within `[0, 1000]` and fails
otherwise; `sumPrices` succeeds with the exact sum exactly when the sum is
within `[0, 10000]` and fails otherwise; the empty list sums to 0. -/
theorem price_multiply_and_sumPrices_bounds (p : Price) (q : Rat) (ps : List Price)
    (_hp : 0 ≤ p.value ∧ p.value ≤ 1000) :
    (p.multiply q = .ok (Price.mk (q * p.value)) ↔
      0 ≤ q * p.value ∧ q * p.value ≤ 1000) ∧
    (exceptOk (p.multiply q) = false ↔ (q * p.value < 0 ∨ 1000 < q * p.value)) ∧
    (BillingAmount.sumPrices ps = .ok (BillingAmount.mk ((ps.map Price.value).sum)) ↔
      0 ≤ (ps.map Price.value).sum ∧ (ps.map Price.value).sum ≤ 10000) ∧
    (exceptOk (BillingAmount.sumPrices ps) = false ↔
      ((ps.map Price.value).sum < 0 ∨ 10000 < (ps.map Price.value).sum)) ∧
    BillingAmount.sumPrices ([] : List Price) = .ok (BillingAmount.mk 0) := by
  refine ⟨?_, ?_, ?_, ?_, by decide⟩
  · unfold Price.multiply Price.create createNumber
    split_ifs with h1 h2
    · simp
      intro h
      exact absurd h1 (not_lt.mpr h)
    · simp
      exact fun _ => h2
    · simp [not_lt.mp h1, not_lt.mp h2]
  · unfold Price.multiply Price.create createNumber
    split_ifs with h1 h2
    · simp [exceptOk, h1]
    · simp [exceptOk, h2]
    · simp [exceptOk, not_lt.mp h1, not_lt.mp h2]
  · rw [sumPrices_eq_create_sum]
    unfold BillingAmount.create createNumber
    split_ifs with h1 h2
    · simp
      intro h
      exact absurd h1 (not_lt.mpr h)
    · simp
      exact fun _ => h2
    · simp [not_lt.mp h1, not_lt.mp h2]
  · rw [sumPrices_eq_create_sum]
    unfold BillingAmount.create createNumber
    split_ifs with h1 h2
    · simp [exceptOk, h1]
    · simp [exceptOk, h2]
    · simp [exceptOk, not_lt.mp h1, not_lt.mp h2]

/-- C10: for a list of in-bounds (hence non-negative) prices the sum is
non-negative, so `sumPrices` can only fail through the upper-bound branch
(its error, when any, is the above-maximum message, never the below-minimum
one), and it fails exactly when the sum exceeds 10000. -/
theorem sumPrices_lowerBound_unreachable (ps : List Price)
    (h : ∀ p ∈ ps, 0 ≤ p.value ∧ p.value ≤ 1000) :
    0 ≤ (ps.map Price.value).sum ∧
    (∀ e, BillingAmount.sumPrices ps = .error e → e = msgAboveMax "BillingAmount" 10000) ∧
    (exceptOk (BillingAmount.sumPrices ps) = false ↔
      10000 < (ps.map Price.value).sum) := by
  have hsum : 0 ≤ (ps.map Price.value).sum := by
    apply List.sum_nonneg
    intro x hx
    obtain ⟨p, hp, hpx⟩ := List.mem_map.mp hx
    rw [← hpx]
    exact (h p hp).1
  refine ⟨hsum, ?_, ?_⟩
  · intro e he
    rw [sumPrices_eq_create_sum] at he
    unfold BillingAmount.create createNumber at he
    split_ifs at he with h1 h2
    · exact absurd h1 (not_lt.mpr hsum)
    · simp at he
      exact he.symm
  · rw [sumPrices_eq_create_sum]
    unfold BillingAmount.create createNumber
    split_ifs with h1 h2
    · exact absurd h1 (not_lt.mpr hsum)
    · simp [exceptOk, h2]
    · simp [exceptOk, not_lt.mp h2]

/-- Witness for C8 at a concrete in-bounds price and quantity. -/
theorem price_multiply_and_sumPrices_bounds_witness :
    ((0 : Rat) ≤ (Price.mk 10).value ∧ (Price.mk 10).value ≤ 1000) ∧
    ((Price.mk 10).multiply 3 = .ok (Price.mk (3 * (Price.mk 10).value)) ↔
      0 ≤ 3 * (Price.mk 10).value ∧ 3 * (Price.mk 10).value ≤ 1000) :=
  ⟨by norm_num,
   (price_multiply_and_sumPrices_bounds (Price.mk 10) 3 [Price.mk 10] (by norm_num)).1⟩

/-- Witness for C10 at a concrete singleton list of valid prices. -/
theorem sumPrices_lowerBound_unreachable_witness :
    (∀ p ∈ [Price.mk 600], 0 ≤ p.value ∧ p.value ≤ 1000) ∧
    0 ≤ (([Price.mk 600]).map Price.value).sum := by
  have hyp : ∀ p ∈ [Price.mk 600], 0 ≤ p.value ∧ p.value ≤ 1000 := by
    intro p hp
    simp at hp
    subst hp
    norm_num
  exact ⟨hyp, (sumPrices_lowerBound_unreachable [Price.mk 600] hyp).1⟩

/-- C1: when pricing succeeds, the priced order has one line per validated
line, in order, with identical id, code and quantity, a line price equal to
the looked-up price times the quantity value, and an amount to bill equal
to the (bounded) sum of the line prices. -/
theorem priceOrder_pricedLines_and_amountToBill (gp : GetProductPrice)
    (vo : ValidatedOrder) (po : PricedOrder) (h : priceOrder gp vo = .ok po) :
    po.Lines.length = vo.Lines.length ∧
    (∀ i (hv : i < vo.Lines.length) (hpz : i < po.Lines.length),
      ((po.Lines.get ⟨i, hpz⟩).OrderLineId = (vo.Lines.get ⟨i, hv⟩).OrderLineId ∧
       (po.Lines.get ⟨i, hpz⟩).ProductCode = (vo.Lines.get ⟨i, hv⟩).ProductCode ∧
       (po.Lines.get ⟨i, hpz⟩).Quantity = (vo.Lines.get ⟨i, hv⟩).Quantity ∧
       (po.Lines.get ⟨i, hpz⟩).LinePrice.value =
         (vo.Lines.get ⟨i, hv⟩).Quantity.value *
           (gp (vo.Lines.get ⟨i, hv⟩).ProductCode).value)) ∧
    po.AmountToBill.value = (po.Lines.map (fun l => l.LinePrice.value)).sum ∧
    0 ≤ po.AmountToBill.value ∧ po.AmountToBill.value ≤ 10000 := by
  simp only [priceOrder] at h
  cases hs : sequenceE (vo.Lines.map (toPricedOrderLine gp)) with
  | error e =>
    rw [hs] at h
    simp [exceptBind_error] at h
  | ok lines =>
    rw [hs] at h
    simp only [exceptBind_ok] at h
    cases hb : BillingAmount.sumPrices (List.map (fun l => l.LinePrice) lines) with
    | error e =>
      rw [hb] at h
      simp [exceptMapError_error, exceptBind_error] at h
    | ok amount =>
      rw [hb] at h
      simp only [exceptMapError_ok, exceptBind_ok, exceptPure] at h
      simp only [Except.ok.injEq] at h
      subst h
      obtain ⟨hlen, hpoint⟩ := sequenceE_map_ok hs
      have hb' : BillingAmount.create
          (((List.map (fun l => l.LinePrice) lines).map Price.value).sum) = .ok amount := by
        rw [← sumPrices_eq_create_sum]
        exact hb
      obtain ⟨hval, hge, hle⟩ := billingAmount_create_ok hb'
      refine ⟨hlen, ?_, ?_, ?_, ?_⟩
      · intro i hv hpz
        have := toPricedOrderLine_ok (hpoint i hv hpz)
        exact this
      · show amount.value = (lines.map (fun l => l.LinePrice.value)).sum
        rw [hval, List.map_map]
        rfl
      · show (0 : Rat) ≤ amount.value
        rw [hval]
        exact hge
      · show amount.value ≤ 10000
        rw [hval]
        exact hle

/-- Witness for C1 at the sample order: pricing succeeds and the amount to
bill is the sum of the line prices. -/
theorem priceOrder_pricedLines_and_amountToBill_witness :
    priceOrder sampleGetPrice sampleValidatedOrder = .ok samplePricedOrder ∧
    samplePricedOrder.AmountToBill.value =
      (samplePricedOrder.Lines.map (fun l => l.LinePrice.value)).sum := by
  have hok : priceOrder sampleGetPrice sampleValidatedOrder = .ok samplePricedOrder := by
    norm_num [priceOrder, sequenceE, toPricedOrderLine, Price.multiply, Price.create,
      createNumber, BillingAmount.sumPrices, BillingAmount.create, sampleGetPrice,
      sampleValidatedOrder, samplePricedOrder, OrderQuantity.value,
      exceptBind_ok, exceptBind_error, exceptPure, exceptMapError_ok]
  exact ⟨hok,
    (priceOrder_pricedLines_and_amountToBill sampleGetPrice sampleValidatedOrder
      samplePricedOrder hok).2.2.1⟩

/-- C2: `validateOrder` fails with `e` exactly when the spec-side
top-to-bottom scan of sub-validations has `e` as its first failure (so a
single error, never accumulated, and no validated order on any failure);
and any validation failure makes the whole workflow return exactly that
`ValidationError` (hence no events). -/
theorem validateOrder_failFast_firstFailure (check : CheckProductCodeExists)
    (checkAddr : CheckAddressExists) (gp : GetProductPrice)
    (cl : CreateOrderAcknowledgmentLetter) (sa : SendOrderAcknowledgment)
    (u : UnvalidatedOrder) :
    (∀ e, validateOrder check checkAddr u = .error e ↔
      specFirstFailure check checkAddr u = some e) ∧
    (∀ e, validateOrder check checkAddr u = .error e →
      placeOrder check checkAddr gp cl sa u = .error (PlaceOrderError.validation e)) := by
  constructor
  · intro e
    unfold validateOrder specFirstFailure
    cases h1 : toOrderId u.OrderId with
    | error e1 => simp [exceptBind_error]
    | ok v1 =>
      cases h2 : toCustomerInfo u.CustomerInfo with
      | error e2 => simp [exceptBind_ok, exceptBind_error]
      | ok v2 =>
        cases h3 : sequenceE (List.map (toValidatedOrderLine check) u.Lines) with
        | error e3 =>
          have hf := (sequenceE_map_error_iff (toValidatedOrderLine check) e3 u.Lines).mp h3
          simp [exceptBind_ok, exceptBind_error, hf]
        | ok ls =>
          have hf := sequenceE_map_ok_findSome_none (f := toValidatedOrderLine check) h3
          cases h4 : toCheckedAddress checkAddr u.ShippingAddress with
          | error e4 => simp [exceptBind_ok, exceptBind_error, hf]
          | ok ca4 =>
            cases h5 : toAddress ca4 with
            | error e5 => simp [exceptBind_ok, exceptBind_error, hf, h5]
            | ok a5 =>
              cases h6 : toCheckedAddress checkAddr u.BillingAddress with
              | error e6 => simp [exceptBind_ok, exceptBind_error, hf, h5, h6]
              | ok ca6 =>
                cases h7 : toAddress ca6 with
                | error e7 =>
                  simp [exceptBind_ok, exceptBind_error, exceptFMap_error, hf, h5, h6, h7]
                | ok a7 =>
                  simp [exceptBind_ok, exceptPure, exceptFMap_ok, hf, h5, h6, h7]
  · intro e he
    simp only [placeOrder, he, exceptMapError_error, exceptBind_error]

/-- Witness for C2 at the sample bad order: validation fails on the order
id and the workflow returns that very validation error. -/
theorem validateOrder_failFast_firstFailure_witness :
    validateOrder sampleCheckCode sampleCheckAddress sampleBadOrder =
      .error (ValidationError.mk (msgNullOrEmpty "OrderId")) ∧
    placeOrder sampleCheckCode sampleCheckAddress sampleGetPrice sampleCreateLetter
      sampleSendAck sampleBadOrder =
      .error (PlaceOrderError.validation (ValidationError.mk (msgNullOrEmpty "OrderId"))) := by
  have he : validateOrder sampleCheckCode sampleCheckAddress sampleBadOrder =
      .error (ValidationError.mk (msgNullOrEmpty "OrderId")) := by decide
  exact ⟨he,
    (validateOrder_failFast_firstFailure sampleCheckCode sampleCheckAddress sampleGetPrice
      sampleCreateLetter sampleSendAck sampleBadOrder).2 _ he⟩
